import Mathlib

/-!
Verification of the BrowseIQ MCP shim (src/backend/dex-mcp-upstream/main.py)
and of the Browser-Control RPC Bridge its specification describes.

The visible Python file is a thin orchestration layer: each registered tool
wrapper builds a params dict from its arguments and forwards it, together
with the shared context, to a single handler function imported from outside
the file, returning the handler's string result verbatim.  We embed that
layer shallowly: the external handlers are fields of a `Tools` structure
over an opaque context type, params dicts are association lists built in
the source's insertion order, and each wrapper is a Lean function mirroring
the corresponding Python function body.

The bridge subsystem (Connection Registry, Correlation Table, Bridge
Façade, shutdown path) is not under src/; following the spec we model it
explicitly and prove the claimed invariants against that model.
-/

namespace BrowseIQ

/-- Primitive values that appear in a params dict: strings and integers. -/
inductive Val where
  | str : String → Val
  | int : Int → Val
deriving DecidableEq, Repr

/-- A params dict, as built by the Python wrappers: an association list of
string keys to primitive values, kept in insertion order (Python dicts
preserve insertion order). -/
abbrev Params := List (String × Val)

/-- Whether a params dict contains a given key. -/
def hasKey (p : Params) (k : String) : Bool :=
  p.any (fun kv => kv.1 == k)

/-- Mirrors the Python pattern `if tab_id is not None: params["tab_id"] = tab_id`:
appends the "tab_id" key exactly when the optional argument is present
(`is not None`), including `tab_id = 0`. -/
def appendTabId (params : Params) (tab_id : Option Int) : Params :=
  match tab_id with
  | some t => params ++ [("tab_id", Val.int t)]
  | none => params

/-- Params built by `navigate(url)`: `{"url": url}` (main.py line 66). -/
def navigateParams (url : String) : Params :=
  [("url", Val.str url)]

/-- Params built by `navigate_tab(url, tab_id)`: `{"url": url, "tab_id": tab_id}`
(main.py line 72). -/
def navigateTabParams (url : String) (tab_id : Int) : Params :=
  [("url", Val.str url), ("tab_id", Val.int tab_id)]

/-- Params built by `select_tab(tab_id)`: `{"tab_id": tab_id}` (main.py line 78). -/
def selectTabParams (tab_id : Int) : Params :=
  [("tab_id", Val.int tab_id)]

/-- Params built by `new_tab(url=None)` (main.py lines 84-86): starts empty and
adds the "url" key under Python truthiness (`if url:`), so both `None` and the
empty string are dropped. -/
def newTabParams (url : Option String) : Params :=
  match url with
  | some u => if u = "" then [] else [("url", Val.str u)]
  | none => []

/-- Params built by `close_tab(tab_id=None)` (main.py lines 93-95): empty dict
plus "tab_id" when `tab_id is not None`. -/
def closeTabParams (tab_id : Option Int) : Params :=
  appendTabId [] tab_id

/-- Params built by `search_google(query, tab_id=None)` (main.py lines 102-104). -/
def searchGoogleParams (query : String) (tab_id : Option Int) : Params :=
  appendTabId [("query", Val.str query)] tab_id

/-- Params built by `click_element(element_id, tab_id=None)` (main.py lines 111-113). -/
def clickElementParams (element_id : String) (tab_id : Option Int) : Params :=
  appendTabId [("element_id", Val.str element_id)] tab_id

/-- Params built by `input_text(element_id, text, tab_id=None)` (main.py lines 120-122). -/
def inputTextParams (element_id : String) (text : String) (tab_id : Option Int) : Params :=
  appendTabId [("element_id", Val.str element_id), ("text", Val.str text)] tab_id

/-- Params built by `send_keys(keys, tab_id=None)` (main.py lines 129-131). -/
def sendKeysParams (keys : String) (tab_id : Option Int) : Params :=
  appendTabId [("keys", Val.str keys)] tab_id

/-- Params built by `grab_dom(tab_id=None)` (main.py lines 138-140). -/
def grabDomParams (tab_id : Option Int) : Params :=
  appendTabId [] tab_id

/-- Params built by `capture_with_highlights(tab_id=None)` (main.py lines 147-149). -/
def captureWithHighlightsParams (tab_id : Option Int) : Params :=
  appendTabId [] tab_id

/-- Params built by `add_assistant_message(message)`: `{"message": message}`
(main.py line 155). -/
def addAssistantMessageParams (message : String) : Params :=
  [("message", Val.str message)]

/-- Params built by the two date-scoped query wrappers: `{"date": date}`
(main.py lines 193 and 213). -/
def dateParams (date : String) : Params :=
  [("date", Val.str date)]

/-- The handler functions imported from `tools.browser` (main.py lines 20-36).
They live outside the visible file, so they are opaque to this layer: each is
an arbitrary function of the shared context (and, for all but the first two, a
params dict) returning a string.  `Ctx` is the type of the shared `Context`
object, likewise opaque here. -/
structure Tools (Ctx : Type) where
  get_tabs_tool : Ctx → String
  screenshot_tool : Ctx → String
  navigate_tool : Ctx → Params → String
  select_tab_tool : Ctx → Params → String
  new_tab_tool : Ctx → Params → String
  close_tab_tool : Ctx → Params → String
  search_google_tool : Ctx → Params → String
  click_element_tool : Ctx → Params → String
  input_text_tool : Ctx → Params → String
  send_keys_tool : Ctx → Params → String
  grab_dom_tool : Ctx → Params → String
  capture_with_highlights_tool : Ctx → Params → String
  add_assistant_message_tool : Ctx → Params → String
  query_history_by_date_tool : Ctx → Params → String
  query_interests_by_date_tool : Ctx → Params → String

variable {Ctx : Type}

/-- Wrapper `get_tabs()` (main.py lines 51-54): forwards only the context. -/
def get_tabs (T : Tools Ctx) (ctx : Ctx) : String :=
  T.get_tabs_tool ctx

/-- Wrapper `screenshot()` (main.py lines 57-60): forwards only the context. -/
def screenshot (T : Tools Ctx) (ctx : Ctx) : String :=
  T.screenshot_tool ctx

/-- Wrapper `navigate(url)` (main.py lines 63-66). -/
def navigate (T : Tools Ctx) (ctx : Ctx) (url : String) : String :=
  T.navigate_tool ctx (navigateParams url)

/-- Wrapper `navigate_tab(url, tab_id)` (main.py lines 69-72). -/
def navigate_tab (T : Tools Ctx) (ctx : Ctx) (url : String) (tab_id : Int) : String :=
  T.navigate_tool ctx (navigateTabParams url tab_id)

/-- Wrapper `select_tab(tab_id)` (main.py lines 75-78). -/
def select_tab (T : Tools Ctx) (ctx : Ctx) (tab_id : Int) : String :=
  T.select_tab_tool ctx (selectTabParams tab_id)

/-- Wrapper `new_tab(url=None)` (main.py lines 81-87). -/
def new_tab (T : Tools Ctx) (ctx : Ctx) (url : Option String) : String :=
  T.new_tab_tool ctx (newTabParams url)

/-- Wrapper `close_tab(tab_id=None)` (main.py lines 90-96). -/
def close_tab (T : Tools Ctx) (ctx : Ctx) (tab_id : Option Int) : String :=
  T.close_tab_tool ctx (closeTabParams tab_id)

/-- Wrapper `search_google(query, tab_id=None)` (main.py lines 99-105). -/
def search_google (T : Tools Ctx) (ctx : Ctx) (query : String) (tab_id : Option Int) : String :=
  T.search_google_tool ctx (searchGoogleParams query tab_id)

/-- Wrapper `click_element(element_id, tab_id=None)` (main.py lines 108-114). -/
def click_element (T : Tools Ctx) (ctx : Ctx) (element_id : String) (tab_id : Option Int) : String :=
  T.click_element_tool ctx (clickElementParams element_id tab_id)

/-- Wrapper `input_text(element_id, text, tab_id=None)` (main.py lines 117-123). -/
def input_text (T : Tools Ctx) (ctx : Ctx) (element_id : String) (text : String)
    (tab_id : Option Int) : String :=
  T.input_text_tool ctx (inputTextParams element_id text tab_id)

/-- Wrapper `send_keys(keys, tab_id=None)` (main.py lines 126-132). -/
def send_keys (T : Tools Ctx) (ctx : Ctx) (keys : String) (tab_id : Option Int) : String :=
  T.send_keys_tool ctx (sendKeysParams keys tab_id)

/-- Wrapper `grab_dom(tab_id=None)` (main.py lines 135-141). -/
def grab_dom (T : Tools Ctx) (ctx : Ctx) (tab_id : Option Int) : String :=
  T.grab_dom_tool ctx (grabDomParams tab_id)

/-- Wrapper `capture_with_highlights(tab_id=None)` (main.py lines 144-150). -/
def capture_with_highlights (T : Tools Ctx) (ctx : Ctx) (tab_id : Option Int) : String :=
  T.capture_with_highlights_tool ctx (captureWithHighlightsParams tab_id)

/-- Wrapper `add_assistant_message(message)` (main.py lines 152-155). -/
def add_assistant_message (T : Tools Ctx) (ctx : Ctx) (message : String) : String :=
  T.add_assistant_message_tool ctx (addAssistantMessageParams message)

/-- Wrapper `query_history_by_date(date)` (main.py lines 174-193).  The
`logging.info` call on line 192 is a side effect on the log stream only and
does not affect the returned value or any bridge state. -/
def query_history_by_date (T : Tools Ctx) (ctx : Ctx) (date : String) : String :=
  T.query_history_by_date_tool ctx (dateParams date)

/-- Wrapper `query_interests_by_date(date)` (main.py lines 211-213). -/
def query_interests_by_date (T : Tools Ctx) (ctx : Ctx) (date : String) : String :=
  T.query_interests_by_date_tool ctx (dateParams date)

/-- Modelled from the spec: the error taxonomy of §7 — `UnknownTab`,
`NoActiveConnection`, `Timeout`, `Remote(code, message)`, `ConnectionLost`,
`ShuttingDown`, `ProtocolViolation`.  The bridge implementation (context.py /
ws_server.py) is not under src/, so it is embedded from the spec's words. -/
inductive BridgeError where
  | unknownTab
  | noActiveConnection
  | timeout
  | remote (code : String) (message : String)
  | connectionLost
  | shuttingDown
  | protocolViolation
deriving DecidableEq, Repr

/-- Modelled from the spec: the outcome placed in a PendingRequest's
single-resolution slot — `{success(payload) | failure(reason)}` (§3). -/
inductive Outcome where
  | success (payload : String)
  | failure (reason : BridgeError)
deriving DecidableEq, Repr

/-- Modelled from the spec: a PendingRequest (§3) — correlation id, target
connection id, and deadline.  The single-resolution slot is represented by
the entry's presence in the table: resolving delivers the outcome to the
waiting caller and removes the entry. -/
structure PendingRequest where
  corrId : Nat
  connId : Nat
  deadline : Nat
deriving DecidableEq, Repr

/-- Modelled from the spec: the Correlation Table (§4.2).  `table` holds the
live PendingRequests; `delivered` records, in order, every (correlation id,
outcome) pair handed to a waiting caller, so at-most-once delivery is
observable in the state. -/
structure CorrState where
  table : List PendingRequest
  delivered : List (Nat × Outcome)
deriving DecidableEq, Repr

/-- Look up the live PendingRequest for a correlation id, if any. -/
def findPending (t : List PendingRequest) (cid : Nat) : Option PendingRequest :=
  t.find? (fun p => p.corrId == cid)

/-- Modelled from the spec: `resolve(correlationId, outcome) -> bool` (§4.2).
If the id has a live entry, the outcome is delivered to its caller, the entry
is removed from the table, and `true` is returned; if the id is unknown or
already resolved, the table is untouched, nothing is delivered, and `false`
is returned (the response is dropped). -/
def resolve (s : CorrState) (cid : Nat) (o : Outcome) : Bool × CorrState :=
  match findPending s.table cid with
  | some _ =>
      (true,
       { table := s.table.filter (fun p => p.corrId != cid),
         delivered := s.delivered ++ [(cid, o)] })
  | none => (false, s)

/-- Modelled from the spec: `cancelAll(connectionId, reason)` (§4.2) —
resolves every pending entry addressed to that connection with a failure
outcome and removes those entries from the table. -/
def cancelAll (s : CorrState) (connId : Nat) (reason : BridgeError) : CorrState :=
  { table := s.table.filter (fun p => p.connId != connId),
    delivered := s.delivered ++
      (s.table.filter (fun p => p.connId == connId)).map
        (fun p => (p.corrId, Outcome.failure reason)) }

/-- Modelled from the spec: a Connection (§3) — identifier and the set of
known tab identifiers it last reported owning. -/
structure Connection where
  connId : Nat
  tabs : List Nat
deriving DecidableEq, Repr

/-- Modelled from the spec: the Connection Registry (§4.1) — the live
connections and the designated default/active connection, if any. -/
structure Registry where
  connections : List Connection
  defaultConn : Option Nat
deriving DecidableEq, Repr

/-- Modelled from the spec: `resolveTarget(tabId?) -> connectionId` (§4.1).
With a tab id, returns the connection that reported owning that tab, failing
with `UnknownTab` if none does; without one, returns the designated default
connection, failing with `NoActiveConnection` if none is registered. -/
def resolveTarget (r : Registry) (tabId : Option Nat) : Except BridgeError Nat :=
  match tabId with
  | some t =>
      match r.connections.find? (fun c => c.tabs.contains t) with
      | some c => Except.ok c.connId
      | none => Except.error BridgeError.unknownTab
  | none =>
      match r.defaultConn with
      | some cid => Except.ok cid
      | none => Except.error BridgeError.noActiveConnection

/-- Modelled from the spec: a serialized Command frame written to a
connection's socket (§6): correlation id, target connection, operation name,
optional tab id, and arguments. -/
structure Frame where
  corrId : Nat
  connId : Nat
  op : String
  tabId : Option Nat
  args : Params
deriving DecidableEq, Repr

/-- Modelled from the spec: the shared state of the bridge — the Connection
Registry, the Correlation Table, the frames written so far to the transport,
and the next fresh correlation id. -/
structure BridgeState where
  registry : Registry
  corr : CorrState
  sentFrames : List Frame
  nextCorrId : Nat
deriving DecidableEq, Repr

/-- Modelled from the spec: the send phase of the Bridge Façade's
`call(operation, tabId?, args, timeout)` (§4.4).  It resolves the target
connection via the Registry, propagating `UnknownTab` / `NoActiveConnection`
immediately with the state untouched (no correlation entry allocated, no
frame sent); on success it allocates a fresh correlation entry with deadline
`now + timeout` and writes the Command frame, returning the correlation id. -/
def callSend (s : BridgeState) (op : String) (tabId : Option Nat) (args : Params)
    (now : Nat) (timeout : Nat) : Except BridgeError Nat × BridgeState :=
  match resolveTarget s.registry tabId with
  | Except.error e => (Except.error e, s)
  | Except.ok connId =>
      let cid := s.nextCorrId
      (Except.ok cid,
       { s with
         corr := { s.corr with
                   table := s.corr.table ++
                     [{ corrId := cid, connId := connId, deadline := now + timeout }] },
         sentFrames := s.sentFrames ++
           [{ corrId := cid, connId := connId, op := op, tabId := tabId, args := args }],
         nextCorrId := cid + 1 })

/-- Modelled from the spec: `unregister(connectionId)` (§4.1) — removes the
connection from the Registry, clears it as default if it was, and cancels
every PendingRequest addressed to it with a `ConnectionLost` failure. -/
def unregister (s : BridgeState) (connId : Nat) : BridgeState :=
  { s with
    registry :=
      { connections := s.registry.connections.filter (fun c => c.connId != connId),
        defaultConn := if s.registry.defaultConn = some connId then none
                       else s.registry.defaultConn },
    corr := cancelAll s.corr connId BridgeError.connectionLost }

/-- Modelled from the spec: the whole server's shutdown-relevant state — the
bridge state plus whether the listening socket is still held (§6 process
boundary). -/
structure ServerState where
  bridge : BridgeState
  listenerOpen : Bool
deriving DecidableEq, Repr

/-- Modelled from the spec: `context.close()` (awaited first in `cleanup`,
main.py line 234; its body is outside src/) — closes all extension WebSocket
connections and resolves every pending correlation entry with a
`ShuttingDown` outcome.  The listening socket is not touched by this step. -/
def contextClose (s : ServerState) : ServerState :=
  { s with
    bridge :=
      { s.bridge with
        registry := { connections := [], defaultConn := none },
        corr := { table := [],
                  delivered := s.bridge.corr.delivered ++
                    s.bridge.corr.table.map
                      (fun p => (p.corrId, Outcome.failure BridgeError.shuttingDown)) } } }

/-- Releasing the listening socket: mirrors `ws_server.close()` followed by
`await ws_server.wait_closed()` in `cleanup` (main.py lines 237-239; when
`ws_server` is None no socket was ever held, and the listener is likewise
not open afterwards). -/
def closeListener (s : ServerState) : ServerState :=
  { s with listenerOpen := false }

/-- The `cleanup()` coroutine (main.py lines 228-241): first
`await context.close()`, and only afterwards close and release the
listening socket. -/
def cleanup (s : ServerState) : ServerState :=
  closeListener (contextClose s)

/-- A concrete, trivial collection of handlers over the unit context, used
only to instantiate universally quantified statements at a closed point. -/
def unitTools : Tools Unit where
  get_tabs_tool _ := ""
  screenshot_tool _ := ""
  navigate_tool _ _ := ""
  select_tab_tool _ _ := ""
  new_tab_tool _ _ := ""
  close_tab_tool _ _ := ""
  search_google_tool _ _ := ""
  click_element_tool _ _ := ""
  input_text_tool _ _ := ""
  send_keys_tool _ _ := ""
  grab_dom_tool _ _ := ""
  capture_with_highlights_tool _ _ := ""
  add_assistant_message_tool _ _ := ""
  query_history_by_date_tool _ _ := ""
  query_interests_by_date_tool _ _ := ""

/-- The specification's reading of `navigate_tab`: the same handler as
`navigate`, applied to the params dict of `navigate` extended with an
always-present "tab_id" key.  Compared against the source's `navigate_tab`
in the refinement claim. -/
def navigate_tab_spec (T : Tools Ctx) (ctx : Ctx) (url : String) (tab_id : Int) : String :=
  T.navigate_tool ctx (navigateParams url ++ [("tab_id", Val.int tab_id)])

/-- Removing every entry with a given correlation id leaves no live entry for
that id: lookups after the removal fail. -/
theorem findPending_filter_ne (t : List PendingRequest) (cid : Nat) :
    findPending (t.filter (fun p => p.corrId != cid)) cid = none := by
  rw [findPending, List.find?_eq_none]
  intro p hp
  rcases List.mem_filter.mp hp with ⟨_, hne⟩
  simpa using hne

/-- C1: every registered tool wrapper (get_tabs, screenshot, navigate,
select_tab, new_tab, close_tab, search_google, click_element, input_text,
send_keys, grab_dom, capture_with_highlights, add_assistant_message,
query_history_by_date, query_interests_by_date) returns exactly the string
produced by its single underlying handler applied to the shared context and
the params dict built from the wrapper's arguments, for every choice of
handlers and arguments — the handler's result is forwarded verbatim. -/
theorem C1_wrappers_forward_verbatim (T : Tools Ctx) (ctx : Ctx)
    (url query element_id text keys message date : String)
    (tid : Int) (otid : Option Int) (ourl : Option String) :
    get_tabs T ctx = T.get_tabs_tool ctx ∧
    screenshot T ctx = T.screenshot_tool ctx ∧
    navigate T ctx url = T.navigate_tool ctx (navigateParams url) ∧
    select_tab T ctx tid = T.select_tab_tool ctx (selectTabParams tid) ∧
    new_tab T ctx ourl = T.new_tab_tool ctx (newTabParams ourl) ∧
    close_tab T ctx otid = T.close_tab_tool ctx (closeTabParams otid) ∧
    search_google T ctx query otid =
      T.search_google_tool ctx (searchGoogleParams query otid) ∧
    click_element T ctx element_id otid =
      T.click_element_tool ctx (clickElementParams element_id otid) ∧
    input_text T ctx element_id text otid =
      T.input_text_tool ctx (inputTextParams element_id text otid) ∧
    send_keys T ctx keys otid = T.send_keys_tool ctx (sendKeysParams keys otid) ∧
    grab_dom T ctx otid = T.grab_dom_tool ctx (grabDomParams otid) ∧
    capture_with_highlights T ctx otid =
      T.capture_with_highlights_tool ctx (captureWithHighlightsParams otid) ∧
    add_assistant_message T ctx message =
      T.add_assistant_message_tool ctx (addAssistantMessageParams message) ∧
    query_history_by_date T ctx date =
      T.query_history_by_date_tool ctx (dateParams date) ∧
    query_interests_by_date T ctx date =
      T.query_interests_by_date_tool ctx (dateParams date) :=
  ⟨rfl, rfl, rfl, rfl, rfl, rfl, rfl, rfl, rfl, rfl, rfl, rfl, rfl, rfl, rfl⟩

/-- C2: for every operation in the catalogue the params mapping forwarded to
its handler contains exactly the required arguments under the stated names —
get_tabs and screenshot forward no args at all, navigate forwards url,
select_tab forwards tab_id, search_google forwards query, click_element
forwards element_id, input_text forwards element_id and text, send_keys
forwards keys, grab_dom and capture_with_highlights forward no required
args — plus an optional "tab_id" key exactly when the caller supplies one. -/
theorem C2_params_exact (T : Tools Ctx) (ctx : Ctx)
    (url query element_id text keys : String) (tid t : Int) :
    get_tabs T ctx = T.get_tabs_tool ctx ∧
    screenshot T ctx = T.screenshot_tool ctx ∧
    navigateParams url = [("url", Val.str url)] ∧
    selectTabParams tid = [("tab_id", Val.int tid)] ∧
    searchGoogleParams query none = [("query", Val.str query)] ∧
    searchGoogleParams query (some t) =
      [("query", Val.str query), ("tab_id", Val.int t)] ∧
    clickElementParams element_id none = [("element_id", Val.str element_id)] ∧
    clickElementParams element_id (some t) =
      [("element_id", Val.str element_id), ("tab_id", Val.int t)] ∧
    inputTextParams element_id text none =
      [("element_id", Val.str element_id), ("text", Val.str text)] ∧
    inputTextParams element_id text (some t) =
      [("element_id", Val.str element_id), ("text", Val.str text),
       ("tab_id", Val.int t)] ∧
    sendKeysParams keys none = [("keys", Val.str keys)] ∧
    sendKeysParams keys (some t) =
      [("keys", Val.str keys), ("tab_id", Val.int t)] ∧
    grabDomParams none = [] ∧
    grabDomParams (some t) = [("tab_id", Val.int t)] ∧
    captureWithHighlightsParams none = [] ∧
    captureWithHighlightsParams (some t) = [("tab_id", Val.int t)] :=
  ⟨rfl, rfl, rfl, rfl, rfl, rfl, rfl, rfl, rfl, rfl, rfl, rfl, rfl, rfl, rfl, rfl⟩

/-- C7: for every date string, query_history_by_date and
query_interests_by_date forward exactly the params dict with the single key
"date" mapped to the given date to their store-collaborator handlers and
return the handler's textual result unchanged.  The statement holds for
every handler and every context, so the result is opaque to this layer, and
the wrappers consist of nothing but this single handler application — no
bridge state is read or written here. -/
theorem C7_date_queries_forward (T : Tools Ctx) (ctx : Ctx) (date : String) :
    query_history_by_date T ctx date =
      T.query_history_by_date_tool ctx [("date", Val.str date)] ∧
    query_interests_by_date T ctx date =
      T.query_interests_by_date_tool ctx [("date", Val.str date)] :=
  ⟨rfl, rfl⟩

/-- C8: new_tab treats every falsy url as absent — with url = None or
url = "" the params dict forwarded to new_tab_tool is empty (no "url" key),
and with a non-empty url it is exactly the singleton mapping "url" to it. -/
theorem C8_new_tab_truthiness (T : Tools Ctx) (ctx : Ctx)
    (u : String) (hu : u ≠ "") (o : Option String) :
    new_tab T ctx o = T.new_tab_tool ctx (newTabParams o) ∧
    newTabParams none = [] ∧
    newTabParams (some "") = [] ∧
    newTabParams (some u) = [("url", Val.str u)] := by
  refine ⟨rfl, rfl, rfl, ?_⟩
  simp [newTabParams, hu]

/-- C8 witness: instantiated at a concrete non-empty url. -/
theorem C8_new_tab_truthiness_witness :
    ("https://example.com" : String) ≠ "" ∧
    newTabParams (some "https://example.com") =
      [("url", Val.str "https://example.com")] ∧
    newTabParams (some "") = [] :=
  have h := C8_new_tab_truthiness unitTools () "https://example.com"
    (by decide) (some "")
  ⟨by decide, h.2.2.2, h.2.2.1⟩

/-- C9: for every wrapper with an optional tab_id (close_tab, search_google,
click_element, input_text, send_keys, grab_dom, capture_with_highlights),
the forwarded params dict contains the "tab_id" key exactly when the caller
passed a tab_id that is not None; in particular tab_id = 0 is forwarded,
since the source checks identity with None, not truthiness. -/
theorem C9_tab_id_present_iff_not_none
    (query element_id text keys : String) (o : Option Int) :
    hasKey (closeTabParams o) "tab_id" = o.isSome ∧
    hasKey (searchGoogleParams query o) "tab_id" = o.isSome ∧
    hasKey (clickElementParams element_id o) "tab_id" = o.isSome ∧
    hasKey (inputTextParams element_id text o) "tab_id" = o.isSome ∧
    hasKey (sendKeysParams keys o) "tab_id" = o.isSome ∧
    hasKey (grabDomParams o) "tab_id" = o.isSome ∧
    hasKey (captureWithHighlightsParams o) "tab_id" = o.isSome ∧
    closeTabParams (some 0) = [("tab_id", Val.int 0)] := by
  cases o with
  | none => exact ⟨rfl, rfl, rfl, rfl, rfl, rfl, rfl, rfl⟩
  | some t => exact ⟨rfl, rfl, rfl, rfl, rfl, rfl, rfl, rfl⟩

/-- C10: navigate and navigate_tab invoke the same underlying handler
navigate_tool and differ only in the forwarded params — navigate_tab
forwards the url and an always-present tab_id, navigate forwards only the
url — so navigate_tab coincides with the spec-side definition that extends
navigate's params dict with the tab_id key. -/
theorem C10_navigate_tab_refines_navigate (T : Tools Ctx) (ctx : Ctx)
    (url : String) (tid : Int) :
    navigate_tab T ctx url tid = navigate_tab_spec T ctx url tid ∧
    navigate T ctx url = T.navigate_tool ctx (navigateParams url) ∧
    navigateTabParams url tid = navigateParams url ++ [("tab_id", Val.int tid)] :=
  ⟨rfl, rfl, rfl⟩

/-- C3: resolve returns false when the correlation id is unknown (leaving the
state untouched, so the late response is dropped), resolving removes the
id's entry from the table immediately, and a second resolution of the same
id — by response, timeout or cancellation — always returns false: at-most-once
resolution. -/
theorem C3_resolve_at_most_once (s : CorrState) (cid : Nat) (o o2 : Outcome) :
    (findPending s.table cid = none → resolve s cid o = (false, s)) ∧
    findPending ((resolve s cid o).2).table cid = none ∧
    (resolve ((resolve s cid o).2) cid o2).1 = false := by
  have hnone : ∀ (s2 : CorrState) (o3 : Outcome),
      findPending s2.table cid = none → resolve s2 cid o3 = (false, s2) := by
    intro s2 o3 h
    unfold resolve
    rw [h]
  have hgone : findPending ((resolve s cid o).2).table cid = none := by
    unfold resolve
    cases h : findPending s.table cid with
    | none => exact h
    | some p => exact findPending_filter_ne s.table cid
  refine ⟨hnone s o, hgone, ?_⟩
  rw [hnone ((resolve s cid o).2) o2 hgone]

/-- C3 witness: at a table holding one entry for id 7, an unknown id is
rejected and a second resolution of id 7 is rejected. -/
theorem C3_resolve_at_most_once_witness :
    (resolve { table := [], delivered := [] } 7 (Outcome.success "ok") =
      (false, { table := [], delivered := [] })) ∧
    ((resolve
        ((resolve
            { table := [{ corrId := 7, connId := 1, deadline := 5 }],
              delivered := [] } 7 (Outcome.success "ok")).2)
        7 (Outcome.success "late")).1 = false) :=
  ⟨(C3_resolve_at_most_once { table := [], delivered := [] } 7
      (Outcome.success "ok") (Outcome.success "ok")).1 rfl,
   (C3_resolve_at_most_once
      { table := [{ corrId := 7, connId := 1, deadline := 5 }], delivered := [] }
      7 (Outcome.success "ok") (Outcome.success "late")).2.2⟩

/-- C4: when no registered connection has reported owning a tab,
resolveTarget fails with UnknownTab, and the Bridge Façade's send path for a
call addressed to that tab fails immediately with UnknownTab leaving the
whole state — in particular the list of sent frames — unchanged: no frame is
sent and no correlation entry is allocated. -/
theorem C4_unknown_tab_fails_without_frame (s : BridgeState) (t : Nat)
    (op : String) (args : Params) (now tmo : Nat)
    (h : ∀ c ∈ s.registry.connections, t ∉ c.tabs) :
    resolveTarget s.registry (some t) = Except.error BridgeError.unknownTab ∧
    callSend s op (some t) args now tmo = (Except.error BridgeError.unknownTab, s) ∧
    (callSend s op (some t) args now tmo).2.sentFrames = s.sentFrames := by
  have hf : s.registry.connections.find? (fun c => decide (t ∈ c.tabs)) = none := by
    rw [List.find?_eq_none]
    intro c hc
    simpa using h c hc
  have hrt : resolveTarget s.registry (some t) = Except.error BridgeError.unknownTab := by
    simp [resolveTarget, hf]
  have hcs : callSend s op (some t) args now tmo =
      (Except.error BridgeError.unknownTab, s) := by
    simp [callSend, hrt]
  exact ⟨hrt, hcs, by rw [hcs]⟩

/-- C4 witness: a registry whose only connection owns tabs 1 and 2, addressed
at tab 7 with a click_element command. -/
theorem C4_unknown_tab_fails_without_frame_witness :
    (∀ c ∈ [({ connId := 1, tabs := [1, 2] } : Connection)], 7 ∉ c.tabs) ∧
    callSend
      { registry := { connections := [{ connId := 1, tabs := [1, 2] }],
                      defaultConn := some 1 },
        corr := { table := [], delivered := [] },
        sentFrames := [], nextCorrId := 0 }
      "click_element" (some 7) [("element_id", Val.str "e1")] 0 5 =
      (Except.error BridgeError.unknownTab,
       { registry := { connections := [{ connId := 1, tabs := [1, 2] }],
                       defaultConn := some 1 },
         corr := { table := [], delivered := [] },
         sentFrames := [], nextCorrId := 0 }) :=
  ⟨by decide,
   (C4_unknown_tab_fails_without_frame
      { registry := { connections := [{ connId := 1, tabs := [1, 2] }],
                      defaultConn := some 1 },
        corr := { table := [], delivered := [] },
        sentFrames := [], nextCorrId := 0 }
      7 "click_element" [("element_id", Val.str "e1")] 0 5 (by decide)).2.1⟩

/-- C5: unregistering a connection delivers a ConnectionLost failure to every
PendingRequest addressed to it, and afterwards the Correlation Table holds
no entry targeting that connection. -/
theorem C5_unregister_cancels_with_connection_lost (s : BridgeState) (cid : Nat) :
    (∀ p ∈ s.corr.table, p.connId = cid →
       (p.corrId, Outcome.failure BridgeError.connectionLost) ∈
         (unregister s cid).corr.delivered) ∧
    (∀ p ∈ (unregister s cid).corr.table, p.connId ≠ cid) := by
  constructor
  · intro p hp hpc
    show _ ∈ (cancelAll s.corr cid BridgeError.connectionLost).delivered
    unfold cancelAll
    refine List.mem_append.mpr (Or.inr ?_)
    exact List.mem_map.mpr ⟨p, List.mem_filter.mpr ⟨hp, by simp [hpc]⟩, rfl⟩
  · intro p hp
    have hmem : p ∈ (cancelAll s.corr cid BridgeError.connectionLost).table := hp
    unfold cancelAll at hmem
    have := (List.mem_filter.mp hmem).2
    simpa using this

/-- C5 witness: a state with one pending request for connection 1 and one for
connection 2; unregistering connection 1 delivers ConnectionLost to the
first. -/
theorem C5_unregister_cancels_with_connection_lost_witness :
    (7, Outcome.failure BridgeError.connectionLost) ∈
      (unregister
        { registry := { connections := [{ connId := 1, tabs := [3] }],
                        defaultConn := some 1 },
          corr := { table := [{ corrId := 7, connId := 1, deadline := 9 },
                              { corrId := 8, connId := 2, deadline := 9 }],
                    delivered := [] },
          sentFrames := [], nextCorrId := 9 } 1).corr.delivered :=
  (C5_unregister_cancels_with_connection_lost
    { registry := { connections := [{ connId := 1, tabs := [3] }],
                    defaultConn := some 1 },
      corr := { table := [{ corrId := 7, connId := 1, deadline := 9 },
                          { corrId := 8, connId := 2, deadline := 9 }],
                delivered := [] },
      sentFrames := [], nextCorrId := 9 } 1).1
    { corrId := 7, connId := 1, deadline := 9 } (by simp) rfl

/-- C6: the cleanup sequence is exactly the connection-closing step followed
by the listener release; the connection-closing step leaves the listener as
it was while emptying the connection set and the pending table, delivering a
ShuttingDown outcome to every formerly pending entry, and only the later
step releases the listening socket — so the listener is never released while
connections or pending entries remain. -/
theorem C6_shutdown_closes_connections_before_listener (s : ServerState) :
    cleanup s = closeListener (contextClose s) ∧
    (contextClose s).listenerOpen = s.listenerOpen ∧
    (contextClose s).bridge.registry.connections = [] ∧
    (contextClose s).bridge.corr.table = [] ∧
    (∀ p ∈ s.bridge.corr.table,
       (p.corrId, Outcome.failure BridgeError.shuttingDown) ∈
         (contextClose s).bridge.corr.delivered) ∧
    (cleanup s).listenerOpen = false := by
  refine ⟨rfl, rfl, rfl, rfl, ?_, rfl⟩
  intro p hp
  show _ ∈ _ ++ _
  exact List.mem_append.mpr (Or.inr (List.mem_map.mpr ⟨p, hp, rfl⟩))

/-- C6 witness: a server with an open listener, one connection and one
pending request; after the connection-closing step the pending request has
its ShuttingDown outcome while the listener is still open, and cleanup ends
with the listener released. -/
theorem C6_shutdown_closes_connections_before_listener_witness :
    (contextClose
      { bridge := { registry := { connections := [{ connId := 1, tabs := [3] }],
                                  defaultConn := some 1 },
                    corr := { table := [{ corrId := 4, connId := 1, deadline := 9 }],
                              delivered := [] },
                    sentFrames := [], nextCorrId := 5 },
        listenerOpen := true }).listenerOpen = true ∧
    (4, Outcome.failure BridgeError.shuttingDown) ∈
      (contextClose
        { bridge := { registry := { connections := [{ connId := 1, tabs := [3] }],
                                    defaultConn := some 1 },
                      corr := { table := [{ corrId := 4, connId := 1, deadline := 9 }],
                                delivered := [] },
                      sentFrames := [], nextCorrId := 5 },
          listenerOpen := true }).bridge.corr.delivered ∧
    (cleanup
      { bridge := { registry := { connections := [{ connId := 1, tabs := [3] }],
                                  defaultConn := some 1 },
                    corr := { table := [{ corrId := 4, connId := 1, deadline := 9 }],
                              delivered := [] },
                    sentFrames := [], nextCorrId := 5 },
        listenerOpen := true }).listenerOpen = false :=
  have h := C6_shutdown_closes_connections_before_listener
    { bridge := { registry := { connections := [{ connId := 1, tabs := [3] }],
                                defaultConn := some 1 },
                  corr := { table := [{ corrId := 4, connId := 1, deadline := 9 }],
                            delivered := [] },
                  sentFrames := [], nextCorrId := 5 },
      listenerOpen := true }
  ⟨h.2.1, h.2.2.2.2.1 { corrId := 4, connId := 1, deadline := 9 } (by simp),
   h.2.2.2.2.2⟩

end BrowseIQ
